import Mathlib

-- Verification of the client-side logic of the rangaone admin dashboard:
-- the tip form dialog (components/tip-form-dialog.tsx) and the
-- stock-symbols page (app/dashboard/stock-symbols/page.tsx).
-- JS numbers are modelled as exact rationals, JS strings as Lean strings
-- (all strings occurring here are ASCII, so .length agrees with the
-- UTF-16 code-unit length used by zod and JS).

/-- Numeric value of a list of decimal digit characters (most significant first). -/
def digitsVal (ds : List Char) : Nat :=
  ds.foldl (fun a c => a * 10 + (c.toNat - 48)) 0

/-- Model of the JS builtin parseFloat as used on the price strings of this
UI: skips leading whitespace, reads an optional sign and a decimal numeral
(digits, optionally a dot and more digits, at least one digit overall),
ignores any trailing characters; none means NaN.  The numeral
sign (ip.fp) denotes the rational sign * (ipVal * 10 ^ k + fpVal) / 10 ^ k
with k the number of fractional digits, built here with mkRat.  Exponent
notation and the Infinity literal, never produced by these forms, are not
modelled. -/
def parseFloat (s : String) : Option ℚ :=
  let cs := s.toList.dropWhile Char.isWhitespace
  let isNeg : Bool := match cs with
    | '-' :: _ => true
    | _ => false
  let cs1 : List Char := match cs with
    | '-' :: r => r
    | '+' :: r => r
    | _ => cs
  let ip := cs1.takeWhile Char.isDigit
  let rest := cs1.dropWhile Char.isDigit
  let fp : List Char := match rest with
    | '.' :: r => r.takeWhile Char.isDigit
    | _ => []
  if ip.isEmpty && fp.isEmpty then none
  else
    let base : Int := (digitsVal ip * 10 ^ fp.length + digitsVal fp : Nat)
    some (mkRat (if isNeg then -base else base) (10 ^ fp.length))

/-- Two-digit zero-padded rendering of a natural number below 100. -/
def pad2 (n : Nat) : String :=
  if n < 10 then "0" ++ toString n else toString n

/-- Model of the JS builtin Number.prototype.toFixed(2) over exact
rationals: the argument is scaled by 100 and rounded to the nearest
integer, ties away from zero (the ECMAScript spec splits off the sign and
then picks the larger candidate), then printed with two fractional
digits.  For q with |q| = a / d the rounded scaled value is
floor(100 * a / d + 1 / 2) = (200 * a + d) / (2 * d) in natural division,
computed here directly on the numerator and denominator. -/
def toFixed2 (q : ℚ) : String :=
  let n : Nat := (200 * q.num.natAbs + q.den) / (2 * q.den)
  let ip := n / 100
  let fp := n % 100
  (if q.num < 0 then "-" else "") ++ toString ip ++ "." ++ pad2 fp

/-- Reads the longest prefix matching the regex piece \d+(\.\d+)? and
returns the remaining characters; none when no leading digit.  Greedy
matching is exact here because a digit can never start the remainder of
the buy-range pattern. -/
def parseNumToken (cs : List Char) : Option (List Char) :=
  let ds := cs.takeWhile Char.isDigit
  let rest := cs.dropWhile Char.isDigit
  if ds.isEmpty then none
  else match rest with
    | '.' :: r2 =>
        if (r2.takeWhile Char.isDigit).isEmpty then some rest
        else some (r2.dropWhile Char.isDigit)
    | _ => some rest

/-- Recognizer for the anchored buy-range regex of tipSchema,
given in tip-form-dialog.tsx line 79, which matches a decimal number, optional
whitespace, a hyphen, optional whitespace, and a second decimal number. -/
def buyRangeMatches (s : String) : Bool :=
  match parseNumToken s.toList with
  | none => false
  | some r1 =>
    match r1.dropWhile Char.isWhitespace with
    | '-' :: r2 =>
        match parseNumToken (r2.dropWhile Char.isWhitespace) with
        | some [] => true
        | _ => false
    | _ => false

/-- Model of the success of the JS URL constructor (new URL(val)) used by
the tipUrl refinement, faithful on the absolute http(s)-style URLs this
form works with: a nonempty alphabetic scheme, the separator, and a
nonempty remainder. -/
def isValidUrl (s : String) : Bool :=
  let scheme := s.toList.takeWhile Char.isAlpha
  match s.toList.dropWhile Char.isAlpha with
  | ':' :: '/' :: '/' :: rest => !scheme.isEmpty && !rest.isEmpty
  | _ => false

/-- The flat shape of the tip form, z.infer of tipSchema
(tip-form-dialog.tsx lines 49-113).  Optional string fields hold the empty
string when blank, exactly as the form state does; analysistConfidence is
a JS number, modelled as a rational. -/
structure TipFormValues where
  title : String
  stockId : String
  stockSymbol : String
  stockName : String
  category : String
  content : String
  description : String
  status : String
  action : String
  buyRange : String
  targetPrice : String
  targetPercentage : String
  addMoreAt : String
  exitPrice : String
  exitStatus : String
  exitStatusPercentage : String
  horizon : String
  tipUrl : String
  analysistConfidence : ℚ
deriving Repr, DecidableEq

/-- A zod issue: the offending field path and the message. -/
abbrev Issue := String × String

/-- Issues of the title field: min 1, min 5, max 200, all checks collected. -/
def titleIssues (v : String) : List Issue :=
  (if v.length < 1 then [("title", "Title is required")] else []) ++
  (if v.length < 5 then [("title", "Title must be at least 5 characters")] else []) ++
  (if v.length > 200 then [("title", "Title must be less than 200 characters")] else [])

/-- Issues of the stockId field: min 1. -/
def stockIdIssues (v : String) : List Issue :=
  if v.length < 1 then [("stockId", "Stock symbol is required")] else []

/-- Issues of the stockSymbol field: min 1. -/
def stockSymbolIssues (v : String) : List Issue :=
  if v.length < 1 then [("stockSymbol", "Stock symbol is required")] else []

/-- Issues of the category enum.  The message stands for the zod default
invalid_enum_value message; its exact wording is not load-bearing. -/
def categoryIssues (v : String) : List Issue :=
  if ["basic", "premium", "social_media"].contains v then []
  else [("category", "Invalid enum value")]

/-- Issues of the content field: min 1, min 20, max 5000. -/
def contentIssues (v : String) : List Issue :=
  (if v.length < 1 then [("content", "Content is required")] else []) ++
  (if v.length < 20 then [("content", "Content must be at least 20 characters")] else []) ++
  (if v.length > 5000 then [("content", "Content must be less than 5000 characters")] else [])

/-- Issues of the description field: min 1, min 10, max 1000. -/
def descriptionIssues (v : String) : List Issue :=
  (if v.length < 1 then [("description", "Description is required")] else []) ++
  (if v.length < 10 then [("description", "Description must be at least 10 characters")] else []) ++
  (if v.length > 1000 then [("description", "Description must be less than 1000 characters")] else [])

/-- Issues of the status enum. -/
def statusIssues (v : String) : List Issue :=
  if ["Active", "Closed"].contains v then []
  else [("status", "Invalid enum value")]

/-- Issues of the action field: min 1, then the membership refinement,
which zod only runs once the inner string schema has succeeded. -/
def actionIssues (v : String) : List Issue :=
  if v.length < 1 then [("action", "Action is required")]
  else if ["buy", "sell", "hold", "partial sell", "partial profit", "add more"].contains v then []
  else [("action", "Please select a valid action")]

/-- Issues of the buyRange field: min 1, then the regex refinement. -/
def buyRangeIssues (v : String) : List Issue :=
  if v.length < 1 then [("buyRange", "Buy range is required")]
  else if buyRangeMatches v then []
  else [("buyRange", "Buy range must be in format: 100-200 or 100.50-200.75")]

/-- Issues of the horizon field: min 1, then the membership refinement. -/
def horizonIssues (v : String) : List Issue :=
  if v.length < 1 then [("horizon", "Horizon is required")]
  else if ["Short Term", "Medium Term", "Long Term"].contains v then []
  else [("horizon", "Please select a valid time horizon")]

/-- Issues of the tipUrl field: min 1, then the URL refinement. -/
def tipUrlIssues (v : String) : List Issue :=
  if v.length < 1 then [("tipUrl", "PDF link is required")]
  else if isValidUrl v then []
  else [("tipUrl", "Please enter a valid URL")]

/-- Issues of the analysistConfidence number: min 1, max 10, int, all
checks collected. -/
def confidenceIssues (v : ℚ) : List Issue :=
  (if v < 1 then [("analysistConfidence", "Confidence score is required")] else []) ++
  (if v > 10 then [("analysistConfidence", "Confidence score must be between 1-10")] else []) ++
  (if v.den = 1 then [] else [("analysistConfidence", "Confidence score must be a whole number")])

/-- All issues of tipSchema.safeParse on a submitted payload, in field
declaration order.  The fields stockName, targetPrice, targetPercentage,
addMoreAt, exitPrice, exitStatus and exitStatusPercentage are declared
z.string().optional() with no checks, so they contribute no issues for
any value; validation succeeds exactly when this list is empty. -/
def tipSchemaIssues (p : TipFormValues) : List Issue :=
  titleIssues p.title ++ stockIdIssues p.stockId ++ stockSymbolIssues p.stockSymbol ++
  categoryIssues p.category ++ contentIssues p.content ++ descriptionIssues p.description ++
  statusIssues p.status ++ actionIssues p.action ++ buyRangeIssues p.buyRange ++
  horizonIssues p.horizon ++ tipUrlIssues p.tipUrl ++ confidenceIssues p.analysistConfidence

/-- A fully valid payload with action buy and an empty targetPrice. -/
def buyTipPayload : TipFormValues :=
  { title := "ACME breakout setup"
  , stockId := "64abc123"
  , stockSymbol := "ACME"
  , stockName := "Acme Corp"
  , category := "basic"
  , content := "Strong earnings momentum with improving margins this quarter."
  , description := "Momentum buy idea."
  , status := "Active"
  , action := "buy"
  , buyRange := "100-200"
  , targetPrice := ""
  , targetPercentage := ""
  , addMoreAt := ""
  , exitPrice := ""
  , exitStatus := ""
  , exitStatusPercentage := ""
  , horizon := "Long Term"
  , tipUrl := "https://example.com/analysis.pdf"
  , analysistConfidence := 5 }

/-- The identical payload with action hold. -/
def holdTipPayload : TipFormValues := { buyTipPayload with action := "hold" }

/-- C1 counterexample: the payload with action buy and an empty
targetPrice passes validation with no issue at all, so it does not fail
with a required-field error as the claim states. -/
theorem buy_without_target_passes :
    buyTipPayload.action = "buy" ∧ buyTipPayload.targetPrice = "" ∧
    tipSchemaIssues buyTipPayload = [] := by
  refine ⟨rfl, rfl, ?_⟩
  decide

/-- C1 (amended): tipSchema never requires targetPrice: the issue list of
any payload is unchanged under any replacement of its targetPrice, and
both the buy and the hold payload with empty targetPrice pass validation. -/
theorem tipSchema_targetPrice_not_required :
    (∀ (p : TipFormValues) (t : String),
        tipSchemaIssues { p with targetPrice := t } = tipSchemaIssues p) ∧
    tipSchemaIssues holdTipPayload = [] ∧ tipSchemaIssues buyTipPayload = [] := by
  refine ⟨fun p t => rfl, ?_, ?_⟩ <;> decide

/-- StockSymbol record as consumed by the dialog and the stock-symbols
page (the type comes from lib/api-stock-symbols, outside src, and is used
here through the fields the pages read).  Both the _id and the id key are
modelled; the empty string stands for an absent field, as these optional
ids are only ever consumed through JS truthiness tests. -/
structure StockSymbol where
  _id : String
  id : String
  symbol : String
  name : String
  exchange : String
  currentPrice : String
  previousPrice : String
deriving Repr, DecidableEq

/-- Auto-calculate-target-percentage effect of tip-form-dialog.tsx lines
197-207: when the auto-calc flag is on, a stock is selected and the
watched target price is truthy, both prices are parsed; only when both
are positive is the percentage field overwritten with the toFixed(2)
rendering of the relative change plus a percent sign.  The result is the
new value of the targetPercentage field. -/
def autoCalcTargetPercentage (isAutoCalcTarget : Bool)
    (selectedStockDetails : Option StockSymbol)
    (watchedTargetPrice : String) (targetPercentage : String) : String :=
  match isAutoCalcTarget, selectedStockDetails with
  | true, some stock =>
    if watchedTargetPrice = "" then targetPercentage
    else
      match parseFloat stock.currentPrice, parseFloat watchedTargetPrice with
      | some currentPrice, some targetPrice =>
          if 0 < currentPrice ∧ 0 < targetPrice then
            toFixed2 ((targetPrice - currentPrice) / currentPrice * 100) ++ "%"
          else targetPercentage
      | _, _ => targetPercentage
  | _, _ => targetPercentage

/-- Auto-calculate-exit-percentage effect of tip-form-dialog.tsx lines
210-220, the structural twin of the target effect acting on the watched
exit price and the exitStatusPercentage field. -/
def autoCalcExitPercentage (isAutoCalcExit : Bool)
    (selectedStockDetails : Option StockSymbol)
    (watchedExitPrice : String) (exitStatusPercentage : String) : String :=
  match isAutoCalcExit, selectedStockDetails with
  | true, some stock =>
    if watchedExitPrice = "" then exitStatusPercentage
    else
      match parseFloat stock.currentPrice, parseFloat watchedExitPrice with
      | some currentPrice, some exitPrice =>
          if 0 < currentPrice ∧ 0 < exitPrice then
            toFixed2 ((exitPrice - currentPrice) / currentPrice * 100) ++ "%"
          else exitStatusPercentage
      | _, _ => exitStatusPercentage
  | _, _ => exitStatusPercentage

/-- A selected stock with currentPrice 150.00, as in the spec example. -/
def demoStock : StockSymbol :=
  { _id := "64abc123", id := "", symbol := "ACME", name := "Acme Corp"
  , exchange := "NSE", currentPrice := "150.00", previousPrice := "149.00" }

/-- C2 counterexample: auto-calc on, selected stock with reference price
150 > 0, entered target price "0".  The claim demands the percentage
field be set to round((0 - 150) / 150 * 100, 2) with a trailing percent
sign, i.e. "-100.00%", but the code leaves the field unchanged because it
additionally requires the entered price to be positive. -/
theorem autoCalc_zero_entered_price_unchanged :
    autoCalcTargetPercentage true (some demoStock) "0" "stale" = "stale" ∧
    toFixed2 (((0 : ℚ) - 150) / 150 * 100) ++ "%" = "-100.00%" ∧
    ("stale" : String) ≠ "-100.00%" := by
  refine ⟨by decide, ?_, by decide⟩
  rw [show ((0 : ℚ) - 150) / 150 * 100 = -100 by norm_num]
  decide

/-- C2 (amended): with an auto-calculate flag on and a stock selected,
the adjacent percentage field is set to round(((entered - reference) /
reference) * 100, 2) with a trailing percent sign exactly when both the
reference price and the entered price parse to positive numbers; in every
other case the field is left unchanged: when the reference price parses
to a non-positive number, when the entered price parses to a non-positive
number, when the entered price is the empty string, when the entered
price does not parse at all (NaN), and when the reference price does not
parse at all (NaN).  Both the target and the exit effect compute the same
formula. -/
theorem autoCalc_percentage_formula :
    (∀ (stock : StockSymbol) (entered old : String) (c t : ℚ),
        parseFloat stock.currentPrice = some c → 0 < c →
        parseFloat entered = some t → 0 < t → entered ≠ "" →
        autoCalcTargetPercentage true (some stock) entered old
            = toFixed2 ((t - c) / c * 100) ++ "%" ∧
        autoCalcExitPercentage true (some stock) entered old
            = toFixed2 ((t - c) / c * 100) ++ "%") ∧
    (∀ (stock : StockSymbol) (entered old : String) (c : ℚ),
        parseFloat stock.currentPrice = some c → c ≤ 0 →
        autoCalcTargetPercentage true (some stock) entered old = old ∧
        autoCalcExitPercentage true (some stock) entered old = old) ∧
    (∀ (stock : StockSymbol) (entered old : String) (t : ℚ),
        parseFloat entered = some t → t ≤ 0 →
        autoCalcTargetPercentage true (some stock) entered old = old ∧
        autoCalcExitPercentage true (some stock) entered old = old) ∧
    (∀ (stock : StockSymbol) (old : String),
        autoCalcTargetPercentage true (some stock) "" old = old ∧
        autoCalcExitPercentage true (some stock) "" old = old) ∧
    (∀ (stock : StockSymbol) (entered old : String),
        parseFloat entered = none →
        autoCalcTargetPercentage true (some stock) entered old = old ∧
        autoCalcExitPercentage true (some stock) entered old = old) ∧
    (∀ (stock : StockSymbol) (entered old : String),
        parseFloat stock.currentPrice = none →
        autoCalcTargetPercentage true (some stock) entered old = old ∧
        autoCalcExitPercentage true (some stock) entered old = old) := by
  refine ⟨?_, ?_, ?_, ?_, ?_, ?_⟩
  · intro stock entered old c t hc hcpos ht htpos hne
    constructor <;>
      simp [autoCalcTargetPercentage, autoCalcExitPercentage, hne, hc, ht,
        if_pos (And.intro hcpos htpos)]
  · intro stock entered old c hc hcle
    by_cases hne : entered = ""
    · constructor <;> simp [autoCalcTargetPercentage, autoCalcExitPercentage, hne]
    · cases ht : parseFloat entered with
      | none =>
          constructor <;>
            simp [autoCalcTargetPercentage, autoCalcExitPercentage, hne, hc, ht]
      | some t =>
          have hnot : ¬(0 < c ∧ 0 < t) := fun h => absurd h.1 (not_lt.mpr hcle)
          constructor <;>
            simp [autoCalcTargetPercentage, autoCalcExitPercentage, hne, hc, ht, hnot]
  · intro stock entered old t ht htle
    by_cases hne : entered = ""
    · constructor <;> simp [autoCalcTargetPercentage, autoCalcExitPercentage, hne]
    · cases hc : parseFloat stock.currentPrice with
      | none =>
          constructor <;>
            simp [autoCalcTargetPercentage, autoCalcExitPercentage, hne, hc, ht]
      | some c =>
          have hnot : ¬(0 < c ∧ 0 < t) := fun h => absurd h.2 (not_lt.mpr htle)
          constructor <;>
            simp [autoCalcTargetPercentage, autoCalcExitPercentage, hne, hc, ht, hnot]
  · intro stock old
    constructor <;> simp [autoCalcTargetPercentage, autoCalcExitPercentage]
  · intro stock entered old hte
    by_cases hne : entered = ""
    · constructor <;> simp [autoCalcTargetPercentage, autoCalcExitPercentage, hne]
    · cases hc : parseFloat stock.currentPrice with
      | none =>
          constructor <;>
            simp [autoCalcTargetPercentage, autoCalcExitPercentage, hne, hc, hte]
      | some c =>
          constructor <;>
            simp [autoCalcTargetPercentage, autoCalcExitPercentage, hne, hc, hte]
  · intro stock entered old hcn
    by_cases hne : entered = ""
    · constructor <;> simp [autoCalcTargetPercentage, autoCalcExitPercentage, hne]
    · cases ht : parseFloat entered with
      | none =>
          constructor <;>
            simp [autoCalcTargetPercentage, autoCalcExitPercentage, hne, hcn, ht]
      | some t =>
          constructor <;>
            simp [autoCalcTargetPercentage, autoCalcExitPercentage, hne, hcn, ht]

/-- C2 witness: currentPrice "150.00" and entered target price "180"
with auto-calc on yield targetPercentage "20.00%", the spec example. -/
theorem autoCalc_percentage_formula_witness :
    autoCalcTargetPercentage true (some demoStock) "180" "" = "20.00%" := by
  have h := (autoCalc_percentage_formula.1 demoStock "180" "" 150 180
      (by decide) (by decide) (by decide) (by decide) (by decide)).1
  rw [h, show ((180 : ℚ) - 150) / 150 * 100 = 20 by norm_num]
  decide

/-- Table data selection of the stock-symbols page, page.tsx line 542:
search results replace the table contents only when the query is truthy
and at least one result came back. -/
def displayData (searchQuery : String) (searchResults stockSymbols : List StockSymbol) :
    List StockSymbol :=
  if searchQuery ≠ "" ∧ 0 < searchResults.length then searchResults else stockSymbols

/-- Table heading of the stock-symbols page, page.tsx line 986. -/
def tableHeading (searchQuery : String) : String :=
  if searchQuery ≠ "" then "Search Results" else "Stock Symbols"

/-- C10: with a non-empty query and zero search results the table shows
the full unfiltered stockSymbols list under the Search Results heading;
search results replace the table contents only when at least one result
was returned. -/
theorem displayData_spec :
    (∀ (q : String) (res syms : List StockSymbol), q ≠ "" → res = [] →
        displayData q res syms = syms ∧ tableHeading q = "Search Results") ∧
    (∀ (q : String) (res syms : List StockSymbol), q ≠ "" → res ≠ [] →
        displayData q res syms = res) := by
  constructor
  · intro q res syms hq hres
    subst hres
    exact ⟨by simp [displayData], by simp [tableHeading, hq]⟩
  · intro q res syms hq hres
    have hlen : 0 < res.length := List.length_pos.mpr hres
    simp [displayData, hq, hlen]

/-- C10 witness: query "ap" with no results shows the stockSymbols list
and the Search Results heading; with one result the result replaces it. -/
theorem displayData_spec_witness :
    (displayData "ap" [] [demoStock] = [demoStock] ∧ tableHeading "ap" = "Search Results") ∧
    displayData "ap" [demoStock] [] = [demoStock] :=
  ⟨displayData_spec.1 "ap" [] [demoStock] (by decide) rfl,
   displayData_spec.2 "ap" [demoStock] [] (by decide) (by simp)⟩

/-- World of browser interval timers as manipulated by the stock-symbols
page: the timers currently installed via setInterval (with their id and
period), the intervalRef.current React ref, and a counter supplying fresh
timer ids. -/
structure TimerWorld where
  nextId : Nat
  active : List (Nat × Nat)
  intervalRef : Option Nat
deriving Repr, DecidableEq

/-- The world before the stock-symbols screen has installed any timer. -/
def TimerWorld.init : TimerWorld := ⟨0, [], none⟩

/-- Effect of clearInterval on the installed timers. -/
def clearIntervalW (id : Nat) (w : TimerWorld) : TimerWorld :=
  { w with active := w.active.filter (fun p => p.1 != id) }

/-- stopRealTimeUpdates, page.tsx lines 152-157: clear the referenced
interval, if any, and null the ref. -/
def stopRealTimeUpdates (w : TimerWorld) : TimerWorld :=
  match w.intervalRef with
  | some id => { clearIntervalW id w with intervalRef := none }
  | none => w

/-- startRealTimeUpdates, page.tsx lines 136-150: clear any existing
interval first, then install a fresh one at the configured period and
store its id in the ref. -/
def startRealTimeUpdates (period : Nat) (w : TimerWorld) : TimerWorld :=
  let w1 := stopRealTimeUpdates w
  { w1 with nextId := w1.nextId + 1
          , active := w1.active ++ [(w1.nextId, period)]
          , intervalRef := some w1.nextId }

/-- One run of the real-time-updates effect, page.tsx lines 126-134:
React first runs the previous cleanup (stopRealTimeUpdates), then the
body, which starts updates when the toggle is on and the user is
authenticated and stops them otherwise.  The effect re-runs whenever the
toggle, the configured period or the authentication flag changes. -/
def realTimeEffectRun (enabled authed : Bool) (period : Nat) (w : TimerWorld) : TimerWorld :=
  let w0 := stopRealTimeUpdates w
  if enabled && authed then startRealTimeUpdates period w0 else stopRealTimeUpdates w0

/-- A whole session of effect runs, oldest first, from the initial world. -/
def runRealTimeEffects (evs : List (Bool × Bool × Nat)) : TimerWorld :=
  evs.foldl (fun w e => realTimeEffectRun e.1 e.2.1 e.2.2 w) TimerWorld.init

/-- The timer bookkeeping invariant: the installed timers are exactly the
one the ref points to, or none. -/
def timerInv (w : TimerWorld) : Prop :=
  match w.intervalRef with
  | none => w.active = []
  | some id => ∃ p, w.active = [(id, p)]

theorem timerInv_init : timerInv TimerWorld.init := by
  simp [timerInv, TimerWorld.init]

theorem stop_of_timerInv (w : TimerWorld) (h : timerInv w) :
    (stopRealTimeUpdates w).active = [] ∧ (stopRealTimeUpdates w).intervalRef = none := by
  cases href : w.intervalRef with
  | none =>
      simp only [timerInv, href] at h
      simp [stopRealTimeUpdates, href, h]
  | some id =>
      simp only [timerInv, href] at h
      obtain ⟨p, hp⟩ := h
      simp [stopRealTimeUpdates, href, clearIntervalW, hp]

theorem timerInv_stop (w : TimerWorld) (h : timerInv w) :
    timerInv (stopRealTimeUpdates w) := by
  have hs := stop_of_timerInv w h
  simp [timerInv, hs.1, hs.2]

theorem timerInv_start (period : Nat) (w : TimerWorld) (h : timerInv w) :
    timerInv (startRealTimeUpdates period w) := by
  have hs := stop_of_timerInv w h
  simp [timerInv, startRealTimeUpdates, hs.1]

theorem timerInv_effectRun (e a : Bool) (p : Nat) (w : TimerWorld) (h : timerInv w) :
    timerInv (realTimeEffectRun e a p w) := by
  unfold realTimeEffectRun
  by_cases hc : (e && a) = true
  · simp only [hc, if_true]
    exact timerInv_start p _ (timerInv_stop w h)
  · simp only [hc, if_false]
    exact timerInv_stop _ (timerInv_stop w h)

theorem timerInv_foldl (evs : List (Bool × Bool × Nat)) :
    ∀ (w : TimerWorld), timerInv w →
      timerInv (evs.foldl (fun w e => realTimeEffectRun e.1 e.2.1 e.2.2 w) w) := by
  induction evs with
  | nil => intro w h; exact h
  | cons e rest ih =>
      intro w h
      exact ih _ (timerInv_effectRun e.1 e.2.1 e.2.2 w h)

theorem timerInv_run (evs : List (Bool × Bool × Nat)) : timerInv (runRealTimeEffects evs) :=
  timerInv_foldl evs TimerWorld.init timerInv_init

/-- C5: across any session of real-time-effect runs at most one refresh
interval timer is installed at any point, and after an effect run with
the toggle off no timer remains installed, so no further polling tick can
fire. -/
theorem realTime_single_timer :
    (∀ (evs : List (Bool × Bool × Nat)), (runRealTimeEffects evs).active.length ≤ 1) ∧
    (∀ (evs : List (Bool × Bool × Nat)) (a : Bool) (p : Nat),
        (runRealTimeEffects (evs ++ [(false, a, p)])).active = []) := by
  constructor
  · intro evs
    have h := timerInv_run evs
    cases href : (runRealTimeEffects evs).intervalRef with
    | none => simp only [timerInv, href] at h; simp [h]
    | some id =>
        simp only [timerInv, href] at h
        obtain ⟨p, hp⟩ := h
        simp [hp]
  · intro evs a p
    have h := timerInv_run evs
    have hrw : runRealTimeEffects (evs ++ [(false, a, p)])
        = realTimeEffectRun false a p (runRealTimeEffects evs) := by
      simp [runRealTimeEffects, List.foldl_append]
    rw [hrw]
    have h0 := timerInv_stop _ h
    have hs := stop_of_timerInv _ h0
    simpa [realTimeEffectRun] using hs.1

/-- Pagination record of the stock-symbols list response. -/
structure PaginationInfo where
  page : Nat
  limit : Nat
  total : Nat
  pages : Nat
deriving Repr, DecidableEq

/-- Response shape of fetchStockSymbols as the page consumes it. -/
structure StockSymbolsResponse where
  data : List StockSymbol
  pagination : Option PaginationInfo
deriving Repr, DecidableEq

/-- The slice of stock-symbols page state touched by a polling tick. -/
structure StockPageState where
  stockSymbols : List StockSymbol
  pagination : PaginationInfo
  lastUpdateTime : Option Nat
  updateCounter : Nat
  isConnected : Bool
deriving Repr, DecidableEq

/-- One tick of the running refresh loop: the interval callback of
startRealTimeUpdates (page.tsx lines 140-149) awaits refreshStockData
(lines 159-185) and sets the connectivity flag; on a failed fetch the
catch flips connectivity off and deliberately leaves the loop installed.
The fetch outcome is passed in; the caller's timer world is returned
untouched in either case, since the tick never clears an interval. -/
def realTimeTick (now : Nat) (fetch : Except Unit StockSymbolsResponse)
    (st : StockPageState) (w : TimerWorld) : StockPageState × TimerWorld :=
  match fetch with
  | .ok resp =>
      ({ st with stockSymbols := resp.data
               , pagination := match resp.pagination with
                   | some pg => pg
                   | none => st.pagination
               , lastUpdateTime := some now
               , updateCounter := st.updateCounter + 1
               , isConnected := true }, w)
  | .error _ => ({ st with isConnected := false }, w)

/-- C6: a failed tick sets connectivity to false, leaves the displayed
rows (and everything else but the flag) unchanged and does not clear the
interval timer, so the loop keeps polling at the same period; a
successful tick sets connectivity to true and strictly increases the
update counter, again leaving the timers untouched. -/
theorem realTimeTick_spec :
    (∀ (now : Nat) (st : StockPageState) (w : TimerWorld) (e : Unit),
        realTimeTick now (.error e) st w = ({ st with isConnected := false }, w)) ∧
    (∀ (now : Nat) (st : StockPageState) (w : TimerWorld) (resp : StockSymbolsResponse),
        (realTimeTick now (.ok resp) st w).1.isConnected = true ∧
        st.updateCounter < (realTimeTick now (.ok resp) st w).1.updateCounter ∧
        (realTimeTick now (.ok resp) st w).1.stockSymbols = resp.data ∧
        (realTimeTick now (.ok resp) st w).2 = w) := by
  constructor
  · intro now st w e
    rfl
  · intro now st w resp
    exact ⟨rfl, Nat.lt_succ_self _, rfl, rfl⟩

/-- State of the database-search box of the stock-symbols page: the
pending debounce timer of the shared debounce utility (page.tsx lines
1132-1142) as an optional fire time and captured argument, the
searchResults state, and event logs of the remote searchStockSymbols
calls issued and of the debounced invocations that ran. -/
structure SearchBoxState where
  pending : Option (Nat × String)
  searchResults : List StockSymbol
  remoteCalls : List String
  firedInvocations : List String
deriving Repr, DecidableEq

/-- The search box before any input. -/
def SearchBoxState.init : SearchBoxState := ⟨none, [], [], []⟩

/-- Body of the debounced closure, page.tsx lines 222-243: terms shorter
than 2 characters clear the results and return without any network call;
otherwise searchStockSymbols is called, its results stored on success and
the results cleared on error.  The remote outcome is the api argument. -/
def debouncedSearchBody (api : String → Except String (List StockSymbol))
    (term : String) (st : SearchBoxState) : SearchBoxState :=
  if term.length < 2 then
    { st with searchResults := [], firedInvocations := st.firedInvocations ++ [term] }
  else
    match api term with
    | .ok rs =>
        { st with searchResults := rs
                , remoteCalls := st.remoteCalls ++ [term]
                , firedInvocations := st.firedInvocations ++ [term] }
    | .error _ =>
        { st with searchResults := []
                , remoteCalls := st.remoteCalls ++ [term]
                , firedInvocations := st.firedInvocations ++ [term] }

/-- Runs the pending debounce timer when its fire time has been reached
by the given clock value; the timeout handler clears itself and invokes
the captured function. -/
def fireDue (api : String → Except String (List StockSymbol)) (now : Nat)
    (st : SearchBoxState) : SearchBoxState :=
  match st.pending with
  | some (ft, term) =>
      if ft ≤ now then debouncedSearchBody api term { st with pending := none } else st
  | none => st

/-- One call of the debounced function (page.tsx lines 1138-1141):
clearTimeout on the previous timer, then setTimeout of the body at the
300ms wait. -/
def scheduleSearch (now : Nat) (term : String) (st : SearchBoxState) : SearchBoxState :=
  { st with pending := some (now + 300, term) }

/-- The searchQuery effect, page.tsx lines 248-254: a truthy query is
handed to the debounced function, an empty query just clears the results
(leaving any pending timer in place).  Any timer already due strictly
before this event has fired first. -/
def onSearchQueryChange (api : String → Except String (List StockSymbol))
    (now : Nat) (q : String) (st : SearchBoxState) : SearchBoxState :=
  let st1 := fireDue api now st
  if q ≠ "" then scheduleSearch now q st1
  else { st1 with searchResults := [] }

/-- A session of timed query edits, oldest first. -/
def runSearchSession (api : String → Except String (List StockSymbol)) :
    List (Nat × String) → SearchBoxState → SearchBoxState
  | [], st => st
  | (t, q) :: rest, st => runSearchSession api rest (onSearchQueryChange api t q st)

/-- Edits each typed within the 300ms quiet period of the previous one
(so no pending timer can fire in between) and each with a nonempty query
(so each edit actually reaches the debounced function). -/
def rapidFrom : Nat → List (Nat × String) → Prop
  | _, [] => True
  | prev, (t, s) :: rest => t < prev + 300 ∧ s ≠ "" ∧ rapidFrom t rest

theorem runSearch_rapid (api : String → Except String (List StockSymbol)) :
    ∀ (es : List (Nat × String)) (st : SearchBoxState) (prev : Nat) (sp : String),
      st.pending = some (prev + 300, sp) → rapidFrom prev es →
      runSearchSession api es st =
        { st with pending := some ((es.getLastD (prev, sp)).1 + 300, (es.getLastD (prev, sp)).2) } := by
  intro es
  induction es with
  | nil =>
      intro st prev sp hp _
      cases st with
      | mk pending results calls fired => simp_all [runSearchSession, List.getLastD]
  | cons e rest ih =>
      intro st prev sp hp hr
      obtain ⟨t, q⟩ := e
      obtain ⟨hlt, hq, hrest⟩ := hr
      have hnofire : ¬(prev + 300 ≤ t) := by omega
      have hstep : onSearchQueryChange api t q st
          = { st with pending := some (t + 300, q) } := by
        simp [onSearchQueryChange, fireDue, hp, hnofire, hq, scheduleSearch]
      have hrec := ih { st with pending := some (t + 300, q) } t q rfl hrest
      rw [show runSearchSession api ((t, q) :: rest) st
            = runSearchSession api rest (onSearchQueryChange api t q st) from rfl,
          hstep, hrec, List.getLastD_cons]

/-- C3 (amended): for every nonempty sequence of rapid edits (each within
the 300ms quiet period of the previous one) whose inputs are all
nonempty, exactly one debounced invocation fires once input has been
stable for the quiet period, and it carries the final input string; every
earlier pending invocation is cancelled before it fires.  The fired
invocation issues the remote search call exactly when the final string is
at least 2 characters long.  (An edit to the empty string instead
bypasses the debounced function entirely, which is what the
counterexample exploits.) -/
theorem debounce_rapid_edits (api : String → Except String (List StockSymbol))
    (st0 : SearchBoxState) (t0 : Nat) (s0 : String) (rest : List (Nat × String)) (T : Nat)
    (h0 : st0.pending = none) (hs0 : s0 ≠ "") (hr : rapidFrom t0 rest)
    (hT : (rest.getLastD (t0, s0)).1 + 300 ≤ T) :
    (fireDue api T (runSearchSession api ((t0, s0) :: rest) st0)).firedInvocations
        = st0.firedInvocations ++ [(rest.getLastD (t0, s0)).2] ∧
    (fireDue api T (runSearchSession api ((t0, s0) :: rest) st0)).remoteCalls
        = (if (rest.getLastD (t0, s0)).2.length < 2 then st0.remoteCalls
           else st0.remoteCalls ++ [(rest.getLastD (t0, s0)).2]) ∧
    (fireDue api T (runSearchSession api ((t0, s0) :: rest) st0)).pending = none := by
  have hstep : onSearchQueryChange api t0 s0 st0
      = { st0 with pending := some (t0 + 300, s0) } := by
    simp [onSearchQueryChange, fireDue, h0, hs0, scheduleSearch]
  have hrun : runSearchSession api ((t0, s0) :: rest) st0
      = { st0 with pending := some ((rest.getLastD (t0, s0)).1 + 300, (rest.getLastD (t0, s0)).2) } := by
    rw [show runSearchSession api ((t0, s0) :: rest) st0
          = runSearchSession api rest (onSearchQueryChange api t0 s0 st0) from rfl, hstep]
    exact runSearch_rapid api rest _ t0 s0 rfl hr
  rw [hrun]
  generalize hg : rest.getLastD (t0, s0) = L at hT ⊢
  have hfire : fireDue api T { st0 with pending := some (L.1 + 300, L.2) }
      = debouncedSearchBody api L.2 { st0 with pending := none } := if_pos hT
  rw [hfire]
  by_cases hlen : L.2.length < 2
  · simp [debouncedSearchBody, hlen]
  · cases hapi : api L.2 with
    | ok rs => simp [debouncedSearchBody, hlen, hapi]
    | error msg => simp [debouncedSearchBody, hlen, hapi]

/-- A remote search collaborator that always answers with no matches;
only the call log matters for the closed theorems below. -/
def constSearchApi : String → Except String (List StockSymbol) := fun _ => Except.ok []

/-- C3 counterexample: edits at 0ms ("ap") and at 100ms (""), less than
300ms apart, final input the empty string.  The empty edit bypasses the
debounced function (the effect only clears the result list), so the
pending timer is not cancelled and fires at 300ms with the stale string
"ap": the one remote call carries "ap", which is not the final input. -/
theorem debounce_stale_fire :
    (fireDue constSearchApi 400
        (runSearchSession constSearchApi [(0, "ap"), (100, "")] SearchBoxState.init)).remoteCalls
      = ["ap"] ∧ ("ap" : String) ≠ "" := by
  constructor
  · decide
  · decide

/-- C3 witness: rapid nonempty edits "ap" then "appl" 100ms apart fire a
single invocation with the final string "appl" and one remote call. -/
theorem debounce_rapid_edits_witness :
    (fireDue constSearchApi 400
        (runSearchSession constSearchApi [(0, "ap"), (100, "appl")]
          SearchBoxState.init)).firedInvocations = ["appl"] ∧
    (fireDue constSearchApi 400
        (runSearchSession constSearchApi [(0, "ap"), (100, "appl")]
          SearchBoxState.init)).remoteCalls = ["appl"] := by
  have h := debounce_rapid_edits constSearchApi SearchBoxState.init 0 "ap" [(100, "appl")] 400
      rfl (by decide) ⟨by decide, by decide, trivial⟩ (by decide)
  exact ⟨h.1, h.2.1⟩

/-- C4: for every input string shorter than 2 characters the debounced
search trigger issues no network call and the search result list ends
empty, whether the string is empty (the effect clears the results without
ever calling the debounced function) or one character long (the debounced
invocation fires after the quiet period and short-circuits). -/
theorem shortQuery_no_call (api : String → Except String (List StockSymbol))
    (t T : Nat) (s : String) (st : SearchBoxState)
    (hlen : s.length < 2) (hp : st.pending = none) (hT : t + 300 ≤ T) :
    (fireDue api T (onSearchQueryChange api t s st)).searchResults = [] ∧
    (fireDue api T (onSearchQueryChange api t s st)).remoteCalls = st.remoteCalls := by
  by_cases hs : s = ""
  · subst hs
    simp [onSearchQueryChange, fireDue, hp]
  · have hstep : onSearchQueryChange api t s st
        = { st with pending := some (t + 300, s) } := by
      simp [onSearchQueryChange, fireDue, hp, hs, scheduleSearch]
    rw [hstep]
    simp [fireDue, hT, debouncedSearchBody, hlen]

/-- C4 witness: the one-character query "a" yields an empty result list
and no remote call once its debounced invocation has fired. -/
theorem shortQuery_no_call_witness :
    (fireDue constSearchApi 300
        (onSearchQueryChange constSearchApi 0 "a" SearchBoxState.init)).searchResults = [] ∧
    (fireDue constSearchApi 300
        (onSearchQueryChange constSearchApi 0 "a" SearchBoxState.init)).remoteCalls = [] :=
  shortQuery_no_call constSearchApi 0 300 "a" SearchBoxState.init (by decide) rfl (by decide)

/-- Tip record from lib/api-tips (outside src), restricted to the fields
the dialog reads; the empty string stands for an absent optional field,
matching how the component consumes them through truthiness and
"|| fallback" expressions. -/
structure Tip where
  _id : String
  title : String
  stockId : String
  stockSymbol : String
  stockName : String
  category : String
  content : List (String × String)
  description : String
  status : String
  action : String
  buyRange : String
  targetPrice : String
  targetPercentage : String
  addMoreAt : String
  exitPrice : String
  exitStatus : String
  exitStatusPercentage : String
  horizon : String
  tipUrl : String
deriving Repr, DecidableEq

/-- The defaultValues object of useForm, tip-form-dialog.tsx lines
161-181, which a bare reset() restores. -/
def tipFormDefaults : TipFormValues :=
  { title := "", stockId := "", stockSymbol := "", stockName := ""
  , category := "basic", content := "", description := "", status := "Active"
  , action := "", buyRange := "", targetPrice := "", targetPercentage := ""
  , addMoreAt := "", exitPrice := "", exitStatus := "", exitStatusPercentage := ""
  , horizon := "Long Term", tipUrl := "", analysistConfidence := 5 }

/-- The local state of the tip dialog that onValidSubmit touches. -/
structure TipDialogState where
  formValues : TipFormValues
  selectedStockDetails : Option StockSymbol
  searchTerm : String
  searchResults : List StockSymbol
  showResults : Bool
  dialogOpen : Bool
deriving Repr, DecidableEq

/-- A toast notification as raised by the dialog. -/
structure ToastMsg where
  title : String
  description : String
  isDestructive : Bool
deriving Repr, DecidableEq

/-- The stock id resolved by onValidSubmit, tip-form-dialog.tsx line 341:
selectedStockDetails?._id || data.stockId under JS truthiness. -/
def resolvedStockId (data : TipFormValues) (st : TipDialogState) : String :=
  match st.selectedStockDetails with
  | some s => if s._id ≠ "" then s._id else data.stockId
  | none => data.stockId

/-- onValidSubmit, tip-form-dialog.tsx lines 323-414.  The remote
operation (updateTip when editing, the onSubmit prop when creating) is
passed in as its outcome.  The early guards throw into the same catch
that a failed remote call reaches: an error toast is raised and the state
is left untouched.  On success a success toast is raised, the dialog is
closed, the form is reset to its defaults and the selection, search term
and dropdown visibility are cleared; the searchResults list itself is not
written.  (The content-array check of lines 377-379 can never throw, as
the array is built one line above with exactly one element.) -/
def onValidSubmit (initialData : Option Tip) (remote : Except String Unit)
    (data : TipFormValues) (st : TipDialogState) : TipDialogState × ToastMsg :=
  if st.selectedStockDetails = none ∧ data.stockId = "" then
    (st, ⟨"Error", "Stock ID is missing", true⟩)
  else if resolvedStockId data st = "" then
    (st, ⟨"Error", "Stock ID is required", true⟩)
  else
    match remote with
    | .ok _ =>
        ({ st with dialogOpen := false
                 , formValues := tipFormDefaults
                 , selectedStockDetails := none
                 , searchTerm := ""
                 , showResults := false },
         ⟨"Success",
          match initialData with
          | some tip =>
              if tip._id ≠ "" then "Tip updated successfully" else "Tip created successfully"
          | none => "Tip created successfully",
          false⟩)
    | .error msg => (st, ⟨"Error", msg, true⟩)

/-- A dialog state mid-search with one result showing and a stock selected. -/
def demoDialogState : TipDialogState :=
  { formValues := buyTipPayload, selectedStockDetails := some demoStock
  , searchTerm := "ac", searchResults := [demoStock], showResults := true
  , dialogOpen := true }

/-- C7 counterexample: a successful submission from a state whose search
result list holds one entry leaves that list as it was, so not all local
state is reset: the result list survives (only the dropdown visibility is
cleared). -/
theorem submit_success_keeps_result_list :
    (onValidSubmit none (Except.ok ()) buyTipPayload demoDialogState).1.searchResults
        = [demoStock] ∧
    [demoStock] ≠ ([] : List StockSymbol) := by
  constructor
  · decide
  · decide

/-- C7 (amended): on a successful submission a success notification is
shown, the dialog is closed, the form values, selected stock, search text
and dropdown visibility are reset, while the search result list is left
as it was (merely hidden); on a failed submission an error notification
with the failure message is shown and the whole dialog state, every
entered form value included, is unchanged. -/
theorem onValidSubmit_spec :
    ∀ (init : Option Tip) (data : TipFormValues) (st : TipDialogState),
      ¬(st.selectedStockDetails = none ∧ data.stockId = "") →
      resolvedStockId data st ≠ "" →
      ((onValidSubmit init (.ok ()) data st).1.dialogOpen = false ∧
       (onValidSubmit init (.ok ()) data st).1.formValues = tipFormDefaults ∧
       (onValidSubmit init (.ok ()) data st).1.selectedStockDetails = none ∧
       (onValidSubmit init (.ok ()) data st).1.searchTerm = "" ∧
       (onValidSubmit init (.ok ()) data st).1.showResults = false ∧
       (onValidSubmit init (.ok ()) data st).1.searchResults = st.searchResults ∧
       (onValidSubmit init (.ok ()) data st).2.title = "Success" ∧
       (onValidSubmit init (.ok ()) data st).2.isDestructive = false) ∧
      (∀ msg, onValidSubmit init (.error msg) data st = (st, ⟨"Error", msg, true⟩)) := by
  intro init data st hguard hid
  constructor
  · cases init with
    | none => simp [onValidSubmit, hguard, hid]
    | some tip => simp [onValidSubmit, hguard, hid]
  · intro msg
    simp [onValidSubmit, hguard, hid]

/-- C7 witness: the concrete success and failure submissions from the
demo state behave as the amended claim states. -/
theorem onValidSubmit_spec_witness :
    (onValidSubmit none (.ok ()) buyTipPayload demoDialogState).1.dialogOpen = false ∧
    (onValidSubmit none (.ok ()) buyTipPayload demoDialogState).1.searchResults
        = demoDialogState.searchResults ∧
    onValidSubmit none (.error "network down") buyTipPayload demoDialogState
        = (demoDialogState, ⟨"Error", "network down", true⟩) := by
  have h := onValidSubmit_spec none buyTipPayload demoDialogState
      (by decide) (by decide)
  exact ⟨h.1.1, h.1.2.2.2.2.2.1, h.2 "network down"⟩

/-- The module-level stock-details cache of tip-form-dialog.tsx line 7,
a JS Map from stock id to its StockSymbol record, in insertion order. -/
abbrev StockCache := List (String × StockSymbol)

/-- Map.prototype.get: the value stored under the key, if any. -/
def cacheGet : StockCache → String → Option StockSymbol
  | [], _ => none
  | p :: rest, k => if p.1 = k then some p.2 else cacheGet rest k

/-- Map.prototype.has. -/
def cacheHas (c : StockCache) (k : String) : Bool := (cacheGet c k).isSome

/-- Map.prototype.set: overwrite in place when the key exists, append
otherwise. -/
def cacheSet : StockCache → String → StockSymbol → StockCache
  | [], k, v => [(k, v)]
  | p :: rest, k, v => if p.1 = k then (k, v) :: rest else p :: cacheSet rest k v

theorem cacheGet_set_self (c : StockCache) (k : String) (v : StockSymbol) :
    cacheGet (cacheSet c k v) k = some v := by
  induction c with
  | nil => simp [cacheSet, cacheGet]
  | cons p rest ih =>
      by_cases h : p.1 = k
      · simp [cacheSet, h, cacheGet]
      · simp [cacheSet, h, cacheGet, ih]

theorem cacheHas_set_self (c : StockCache) (k : String) (v : StockSymbol) :
    cacheHas (cacheSet c k v) k = true := by
  simp [cacheHas, cacheGet_set_self]

theorem cacheHas_set_mono (c : StockCache) (k q : String) (v : StockSymbol)
    (h : cacheHas c q = true) : cacheHas (cacheSet c k v) q = true := by
  induction c with
  | nil => simp [cacheHas, cacheGet] at h
  | cons p rest ih =>
      simp only [cacheHas, cacheGet] at h
      by_cases hpq : p.1 = q
      · by_cases hpk : p.1 = k
        · have hqk : q = k := by rw [← hpq]; exact hpk
          simp [cacheHas, cacheSet, hpk, cacheGet, hqk]
        · have hqk : ¬q = k := fun hc => hpk (hpq.trans hc)
          simp [cacheHas, cacheSet, cacheGet, hpq, hqk]
      · rw [if_neg hpq] at h
        have hrest : cacheHas rest q = true := h
        by_cases hpk : p.1 = k
        · by_cases hqk : q = k
          · subst hqk
            simp [cacheHas, cacheSet, hpk, cacheGet]
          · have hkq : ¬k = q := fun hc => hqk hc.symm
            simpa [cacheHas, cacheSet, hpk, cacheGet, hkq] using hrest
        · have hrec := ih hrest
          simpa [cacheHas, cacheSet, hpk, cacheGet, hpq] using hrec

/-- The fallback record built in the catch of fetchStockDetails,
tip-form-dialog.tsx lines 248-256: identifying fields from the tip, no
exchange, currentPrice from the tip's own targetPrice (or "0" when that
is empty), previousPrice "0". -/
def fallbackStock (tip : Tip) : StockSymbol :=
  { _id := tip.stockId, id := "", symbol := tip.stockSymbol, name := tip.stockName
  , exchange := "", currentPrice := if tip.targetPrice ≠ "" then tip.targetPrice else "0"
  , previousPrice := "0" }

/-- Result of running fetchStockDetails: the cache afterwards, the
selectedStockDetails value installed, the fetchStockSymbolById calls
issued, and the toasts raised (none on any path of this function; the
catch only logs to the console). -/
structure FetchDetailsResult where
  cache : StockCache
  selectedStockDetails : Option StockSymbol
  fetchCalls : List String
  toasts : List ToastMsg
deriving DecidableEq

/-- fetchStockDetails, tip-form-dialog.tsx lines 233-260, run when the
dialog opens on an existing tip with a stockId: the cache is consulted
first; on a miss the remote lookup runs, a success is cached and
installed, and a failure silently installs the fallback record without
touching the cache. -/
def fetchStockDetails (tip : Tip) (fetch : Except Unit StockSymbol)
    (c : StockCache) : FetchDetailsResult :=
  if cacheHas c tip.stockId then
    ⟨c, cacheGet c tip.stockId, [], []⟩
  else
    match fetch with
    | .ok stock => ⟨cacheSet c tip.stockId stock, some stock, [tip.stockId], []⟩
    | .error _ => ⟨c, some (fallbackStock tip), [tip.stockId], []⟩

/-- The id under which handleStockSelect stores a picked stock,
tip-form-dialog.tsx line 476: stock._id || stock.id || "". -/
def selectStockId (stock : StockSymbol) : String :=
  if stock._id ≠ "" then stock._id else stock.id

/-- The cache effect of handleStockSelect, tip-form-dialog.tsx lines
483-486: the picked record is stored under its id when it has one. -/
def handleStockSelectCache (stock : StockSymbol) (c : StockCache) : StockCache :=
  if selectStockId stock ≠ "" then cacheSet c (selectStockId stock) stock else c

/-- C8: the cache is consulted before any network lookup (a hit issues no
fetchStockSymbolById call, uses the cached record and leaves the cache
unchanged); a successful detail fetch on a miss inserts the record under
the tip's stock id; an explicit selection inserts the picked record under
its id; and neither operation ever removes a cache entry. -/
theorem stockCache_spec :
    (∀ (tip : Tip) (f : Except Unit StockSymbol) (c : StockCache),
        cacheHas c tip.stockId = true →
        fetchStockDetails tip f c = ⟨c, cacheGet c tip.stockId, [], []⟩) ∧
    (∀ (tip : Tip) (s : StockSymbol) (c : StockCache),
        cacheHas c tip.stockId = false →
        (fetchStockDetails tip (.ok s) c).cache = cacheSet c tip.stockId s ∧
        cacheGet (fetchStockDetails tip (.ok s) c).cache tip.stockId = some s) ∧
    (∀ (stock : StockSymbol) (c : StockCache),
        selectStockId stock ≠ "" →
        cacheGet (handleStockSelectCache stock c) (selectStockId stock) = some stock) ∧
    (∀ (tip : Tip) (f : Except Unit StockSymbol) (c : StockCache) (k : String),
        cacheHas c k = true → cacheHas (fetchStockDetails tip f c).cache k = true) ∧
    (∀ (stock : StockSymbol) (c : StockCache) (k : String),
        cacheHas c k = true → cacheHas (handleStockSelectCache stock c) k = true) := by
  refine ⟨?_, ?_, ?_, ?_, ?_⟩
  · intro tip f c h
    simp [fetchStockDetails, h]
  · intro tip s c h
    simp [fetchStockDetails, h, cacheGet_set_self]
  · intro stock c h
    simp [handleStockSelectCache, h, cacheGet_set_self]
  · intro tip f c k h
    by_cases hhit : cacheHas c tip.stockId
    · simp [fetchStockDetails, hhit, h]
    · cases f with
      | ok s => simp [fetchStockDetails, hhit, cacheHas_set_mono c tip.stockId k s h]
      | error e => simp [fetchStockDetails, hhit, h]
  · intro stock c k h
    by_cases hsel : selectStockId stock ≠ ""
    · simp [handleStockSelectCache, hsel, cacheHas_set_mono c (selectStockId stock) k stock h]
    · simp [handleStockSelectCache, hsel, h]

/-- An existing tip, under edit, whose target price is 150. -/
def demoTip : Tip :=
  { _id := "7f00aa", title := "ACME breakout setup", stockId := "64abc123"
  , stockSymbol := "ACME", stockName := "Acme Corp", category := "basic"
  , content := [("main", "Strong earnings momentum with improving margins this quarter.")]
  , description := "Momentum buy idea.", status := "Active", action := "buy"
  , buyRange := "100-200", targetPrice := "150", targetPercentage := ""
  , addMoreAt := "", exitPrice := "", exitStatus := "", exitStatusPercentage := ""
  , horizon := "Long Term", tipUrl := "https://example.com/analysis.pdf" }

/-- C8 witness: a cache holding the demo stock under the demo tip's id
answers the dialog-open lookup with the cached record and no fetch call,
and a selection of the demo stock is stored under its id. -/
theorem stockCache_spec_witness :
    fetchStockDetails demoTip (.error ()) [("64abc123", demoStock)]
        = ⟨[("64abc123", demoStock)], cacheGet [("64abc123", demoStock)] "64abc123", [], []⟩ ∧
    cacheGet (handleStockSelectCache demoStock []) (selectStockId demoStock) = some demoStock := by
  constructor
  · exact stockCache_spec.1 demoTip (.error ()) [("64abc123", demoStock)] (by decide)
  · exact stockCache_spec.2.2.1 demoStock [] (by decide)

/-- C9: when the edit dialog opens on an existing tip and the detail
fetch fails on a cache miss, no toast is surfaced (the catch only logs);
the fallback record is installed as the selected stock and the cache is
untouched.  The fallback's currentPrice is the tip's own targetPrice (or
"0" when that is absent), so every subsequent auto-calculated target or
exit percentage uses the tip's target price as its reference price. -/
theorem fetch_failure_fallback :
    (∀ (tip : Tip), tip.targetPrice = "" → (fallbackStock tip).currentPrice = "0") ∧
    (∀ (tip : Tip) (c : StockCache),
        cacheHas c tip.stockId = false →
        (fetchStockDetails tip (.error ()) c).toasts = [] ∧
        (fetchStockDetails tip (.error ()) c).selectedStockDetails = some (fallbackStock tip) ∧
        (fetchStockDetails tip (.error ()) c).cache = c) ∧
    (∀ (tip : Tip) (entered old : String) (rc t : ℚ),
        tip.targetPrice ≠ "" →
        parseFloat tip.targetPrice = some rc → 0 < rc →
        parseFloat entered = some t → 0 < t → entered ≠ "" →
        autoCalcTargetPercentage true (some (fallbackStock tip)) entered old
            = toFixed2 ((t - rc) / rc * 100) ++ "%" ∧
        autoCalcExitPercentage true (some (fallbackStock tip)) entered old
            = toFixed2 ((t - rc) / rc * 100) ++ "%") := by
  refine ⟨?_, ?_, ?_⟩
  · intro tip h
    simp [fallbackStock, h]
  · intro tip c h
    simp [fetchStockDetails, h]
  · intro tip entered old rc t hne hrc hrcpos ht htpos hene
    have hcp : (fallbackStock tip).currentPrice = tip.targetPrice := by
      simp [fallbackStock, hne]
    constructor <;>
      simp [autoCalcTargetPercentage, autoCalcExitPercentage, hene, hcp, hrc, ht,
        if_pos (And.intro hrcpos htpos)]

/-- C9 witness: opening the demo tip (targetPrice "150") against a
failing fetch and an empty cache installs the fallback silently, and an
entered target price of "180" then auto-calculates to "20.00%" against
the tip's own target price. -/
theorem fetch_failure_fallback_witness :
    (fetchStockDetails demoTip (.error ()) []).selectedStockDetails
        = some (fallbackStock demoTip) ∧
    (fetchStockDetails demoTip (.error ()) []).toasts = [] ∧
    autoCalcTargetPercentage true (some (fallbackStock demoTip)) "180" "" = "20.00%" := by
  have h2 := fetch_failure_fallback.2.1 demoTip [] (by decide)
  have h3 := (fetch_failure_fallback.2.2 demoTip "180" "" 150 180 (by decide) (by decide)
      (by decide) (by decide) (by decide) (by decide)).1
  refine ⟨h2.2.1, h2.1, ?_⟩
  rw [h3, show ((180 : ℚ) - 150) / 150 * 100 = 20 by norm_num]
  decide
